import Mathlib

/-
Verification of the UNS payload publishing pipeline shared by
`examples/pump_mqtt_publisher.py` and `examples/tank_mqtt_publisher.py`.
The two scripts contain line-for-line identical definitions of
`validate_payload` and `publish_payload` (pump lines 134-151 / 831-904,
tank lines 127-144 / 754-814), so a single shallow embedding models both.
-/

namespace UNSPayload

/-- The closed set of schema names the classifier can resolve
(the keys of the `schema_files` table in `load_schemas`). -/
inductive SchemaName where
  | asset
  | alert
  | state
  | measurement
  | count
  | kpi
  | product
  | production
  | reading
  | value
deriving DecidableEq, Repr

/-- JSON-like values: the shape of the Python payload dictionaries
(string keys mapping to strings, numbers, booleans, null, nested
objects, or arrays). Numeric values are modelled as integers since no
classification or publishing decision inspects numeric content. -/
inductive JsonVal where
  | str (s : String)
  | num (n : Int)
  | bool (b : Bool)
  | null
  | obj (fields : List (String × JsonVal))
  | arr (items : List JsonVal)

/-- A payload is a Python dict: a finite association of string keys to values. -/
def Payload := List (String × JsonVal)

/-- Python's `key in payload` on a dict: membership among the top-level keys. -/
def hasKey (p : Payload) (k : String) : Bool :=
  (p.map Prod.fst).contains k

/-- Auxiliary scan for substring containment: does `pat` occur as a prefix
of some suffix of the second list? -/
def infixAux (pat : List Char) : List Char → Bool
  | [] => pat.isEmpty
  | c :: rest => pat.isPrefixOf (c :: rest) || infixAux pat rest

/-- Python's substring test `pat in s` on strings. -/
def containsSub (pat s : String) : Bool :=
  infixAux pat.toList s.toList

/-- Topic-based schema detection: the first `if/elif` chain of
`publish_payload` (pump lines 836-858, tank lines 756-778), translated
clause for clause. Python's `'/edge/' in topic` is substring containment. -/
def classifyTopic (topic : String) : Option SchemaName :=
  if containsSub "/edge/" topic then some SchemaName.reading
  else if containsSub "/reading/" topic then some SchemaName.reading
  else if containsSub "/measurement/" topic then some SchemaName.measurement
  else if containsSub "/count/" topic then some SchemaName.count
  else if containsSub "/kpi/" topic then some SchemaName.kpi
  else if containsSub "/asset" topic then some SchemaName.asset
  else if containsSub "/alert" topic then some SchemaName.alert
  else if containsSub "/state" topic then some SchemaName.state
  else if containsSub "/product" topic && !containsSub "/production" topic then
    some SchemaName.product
  else if containsSub "/production" topic then some SchemaName.production
  else if containsSub "/value" topic then some SchemaName.value
  else none

/-- Payload-shape fallback detection: the second `if/elif` chain of
`publish_payload` (pump lines 861-882, tank lines 779-799), reached only
when the topic chain left `schema_name` as `None`. -/
def classifyShape (p : Payload) : Option SchemaName :=
  if hasKey p "assetId" then some SchemaName.asset
  else if hasKey p "alertId" then some SchemaName.alert
  else if hasKey p "stateId" then some SchemaName.state
  else if hasKey p "measurementId" then some SchemaName.measurement
  else if hasKey p "countId" then some SchemaName.count
  else if hasKey p "kpiId" then some SchemaName.kpi
  else if hasKey p "productId" then some SchemaName.product
  else if hasKey p "productionId" then some SchemaName.production
  else if hasKey p "valueId" then some SchemaName.value
  else if hasKey p "type" && hasKey p "value" && hasKey p "unit" then
    some SchemaName.reading
  else none

/-- The complete classification step of `publish_payload`: topic rules
first, and the shape fallback only `if not schema_name` afterwards. -/
def classify (topic : String) (p : Payload) : Option SchemaName :=
  match classifyTopic topic with
  | some n => some n
  | none => classifyShape p

/-- A loaded JSON Schema document, abstracted by its validation
semantics: the Boolean predicate that `jsonschema.validate` computes when
checking a payload against the document (accept = no `ValidationError`). -/
def SchemaDoc := Payload → Bool

/-- The `SCHEMAS` dict built by `load_schemas`: a partial mapping from
schema name to loaded document.  Any schema that failed to load is simply
absent (`none`), as in the Python `except` branch of `load_schemas`. -/
def Schemas := SchemaName → Option SchemaDoc

/-- Outcome of one `validate_payload` call: `ok` is the Boolean return
value, `advisory` records whether the "No schema found ..., skipping
validation" warning was emitted. -/
structure ValidationResult where
  ok : Bool
  advisory : Bool
deriving DecidableEq, Repr

/-- Embedding of `validate_payload(payload, schema_name, schemas)` (pump
lines 134-151, tank lines 127-144): a missing schema is a soft pass with
an advisory warning; otherwise the payload is checked against the
document, returning `False` exactly when `jsonschema.validate` raises a
`ValidationError`. -/
def validate_payload (p : Payload) (schema_name : SchemaName) (schemas : Schemas) :
    ValidationResult :=
  match schemas schema_name with
  | none => { ok := true, advisory := true }
  | some doc => { ok := doc p, advisory := false }

mutual

/-- Serialization of a payload value to wire text, modelling
`json.dumps(payload, indent=2)` (the `indent=2` pretty-printing is
abstracted to a compact rendering; no verified claim depends on the
exact wire text, only on the fact that the serialized payload is handed
to the transport). -/
def json_dumps : JsonVal → String
  | JsonVal.str s => "\"" ++ s ++ "\""
  | JsonVal.num n => toString n
  | JsonVal.bool b => if b then "true" else "false"
  | JsonVal.null => "null"
  | JsonVal.obj fs => "\x7b" ++ json_dumps_obj fs ++ "\x7d"
  | JsonVal.arr xs => "[" ++ json_dumps_arr xs ++ "]"

/-- Serialization of the field list of a JSON object. -/
def json_dumps_obj : List (String × JsonVal) → String
  | [] => ""
  | (k, v) :: rest =>
    "\"" ++ k ++ "\": " ++ json_dumps v ++
      (if rest.isEmpty then "" else ", ") ++ json_dumps_obj rest

/-- Serialization of the element list of a JSON array. -/
def json_dumps_arr : List JsonVal → String
  | [] => ""
  | x :: rest =>
    json_dumps x ++ (if rest.isEmpty then "" else ", ") ++ json_dumps_arr rest

end

/-- The paho-mqtt success return code `mqtt.MQTT_ERR_SUCCESS`. -/
def MQTT_ERR_SUCCESS : Nat := 0

/-- The transport handle: `client.publish(topic, payload_json, qos=MQTT_QOS)`
abstracted as a function from the topic and the serialized payload to the
immediate return code `result.rc` of the send call (the fixed `qos`
argument is configuration and does not appear in any verified claim). -/
def Client := String → String → Nat

/-- Observable outcome of one `publish_payload` call. -/
structure PublishResult where
  /-- The final value of the local variable `schema_name`. -/
  schemaName : Option SchemaName
  /-- Whether control reached `client.publish` (the payload was handed
  to the transport). -/
  transmitted : Bool
  /-- Whether the "Could not determine schema type" warning was
  emitted (`elif not schema_name` branch). -/
  warnedUnknown : Bool
  /-- The Boolean value returned to the caller. -/
  returned : Bool

/-- Embedding of `publish_payload(client, topic, payload)` (pump lines
831-904, tank lines 754-814).  It classifies by topic then payload shape,
returns `False` without publishing when a resolved schema rejects the
payload, warns when no schema resolved, and otherwise serializes,
publishes, and reports `result.rc == mqtt.MQTT_ERR_SUCCESS`.  The module
global `SCHEMAS` is passed explicitly. -/
def publish_payload (client : Client) (topic : String) (p : Payload)
    (schemas : Schemas) : PublishResult :=
  match classify topic p with
  | some n =>
    if (validate_payload p n schemas).ok = false then
      { schemaName := some n, transmitted := false,
        warnedUnknown := false, returned := false }
    else
      let rc := client topic (json_dumps (JsonVal.obj p))
      { schemaName := some n, transmitted := true,
        warnedUnknown := false, returned := rc == MQTT_ERR_SUCCESS }
  | none =>
    let rc := client topic (json_dumps (JsonVal.obj p))
    { schemaName := none, transmitted := true,
      warnedUnknown := true, returned := rc == MQTT_ERR_SUCCESS }

/-- One sweep of the per-item publishing loop in `publish_pump_data`
(pump lines 796-818) / `publish_tank_data`: each (topic, payload) item is
published in turn and its success flag reported; the loop body catches all
per-item exceptions and always proceeds to the next item. -/
def publishCycle (client : Client) (schemas : Schemas) :
    List (String × Payload) → List Bool
  | [] => []
  | (t, p) :: rest =>
    (publish_payload client t p schemas).returned ::
      publishCycle client schemas rest

/-- Generic first-match-wins evaluation of an ordered list of
guard/result rules. -/
def firstMatch : List ((String → Bool) × SchemaName) → String → Option SchemaName
  | [], _ => none
  | (g, n) :: rest, t => if g t then some n else firstMatch rest t

/-- The eleven topic rules of `publish_payload`, as an ordered list of
guard/result pairs in source order. -/
def topicRules : List ((String → Bool) × SchemaName) :=
  [(containsSub "/edge/", SchemaName.reading),
   (containsSub "/reading/", SchemaName.reading),
   (containsSub "/measurement/", SchemaName.measurement),
   (containsSub "/count/", SchemaName.count),
   (containsSub "/kpi/", SchemaName.kpi),
   (containsSub "/asset", SchemaName.asset),
   (containsSub "/alert", SchemaName.alert),
   (containsSub "/state", SchemaName.state),
   (fun t => containsSub "/product" t && !containsSub "/production" t, SchemaName.product),
   (containsSub "/production", SchemaName.production),
   (containsSub "/value", SchemaName.value)]

lemma classifyTopic_eq_firstMatch (t : String) :
    classifyTopic t = firstMatch topicRules t := rfl

lemma classifyTopic_production_isSome (t : String)
    (h : containsSub "/production" t = true) : classifyTopic t ≠ none := by
  unfold classifyTopic
  split_ifs <;> simp_all

lemma classifyTopic_ne_product (t : String)
    (h : containsSub "/production" t = true) :
    classifyTopic t ≠ some SchemaName.product := by
  unfold classifyTopic
  split_ifs <;> simp_all

/-- The payload-shape fallback as worded by the spec (section 4.2 step 2):
"presence of key assetId → asset; alertId → alert; stateId → state;
measurementId → measurement; countId → count; kpiId → kpi; productId →
product; productionId → production; valueId → value; else if payload
simultaneously has keys type, value, and unit → reading", else unknown.
This second definition follows the spec's words and is compared with the
source-derived `classifyShape` in claim C4. -/
def classifyShapeSpec (p : Payload) : Option SchemaName :=
  if hasKey p "assetId" then some SchemaName.asset
  else if hasKey p "alertId" then some SchemaName.alert
  else if hasKey p "stateId" then some SchemaName.state
  else if hasKey p "measurementId" then some SchemaName.measurement
  else if hasKey p "countId" then some SchemaName.count
  else if hasKey p "kpiId" then some SchemaName.kpi
  else if hasKey p "productId" then some SchemaName.product
  else if hasKey p "productionId" then some SchemaName.production
  else if hasKey p "valueId" then some SchemaName.value
  else if hasKey p "type" && hasKey p "value" && hasKey p "unit" then
    some SchemaName.reading
  else none

lemma publishCycle_append (client : Client) (schemas : Schemas)
    (l1 l2 : List (String × Payload)) :
    publishCycle client schemas (l1 ++ l2) =
      publishCycle client schemas l1 ++ publishCycle client schemas l2 := by
  induction l1 with
  | nil => rfl
  | cons hd tl ih =>
    cases hd
    simp [publishCycle, ih]

/-- C1: for every call to `publish_payload`, the payload is handed to the
transport (`client.publish` is reached) exactly when either (a) a schema
name was resolved and `validate_payload` accepted the payload against it,
or (b) no schema name could be resolved from the topic or the payload's
shape, in which case it is transmitted anyway after the "could not
determine schema type" warning is reported. -/
theorem c1_transmit_gate (client : Client) (t : String) (p : Payload)
    (schemas : Schemas) :
    (publish_payload client t p schemas).transmitted = true ↔
      ((∃ n, classify t p = some n ∧ (validate_payload p n schemas).ok = true) ∨
       (classify t p = none ∧
         (publish_payload client t p schemas).warnedUnknown = true)) := by
  unfold publish_payload
  cases hc : classify t p with
  | none => simp
  | some n => cases hv : (validate_payload p n schemas).ok <;> simp [hv]

/-- C2 counterexample: the topic `plant/asset/production` contains both
the substring `product` and the substring `production` (even as a whole
path segment), yet classification resolves `asset`, not `production`,
because the `asset` rule precedes the product/production rules in the
first-match-wins chain.  This refutes the claim's sentence "every topic
containing both `product` and `production` classifies as `production`". -/
theorem c2_counterexample :
    containsSub "product" "plant/asset/production" = true ∧
    containsSub "production" "plant/asset/production" = true ∧
    classify "plant/asset/production" [] = some SchemaName.asset ∧
    ¬ classify "plant/asset/production" [] = some SchemaName.production := by
  decide

/-- C2 (amended): schema classification applies the eleven topic rules in
exactly the fixed first-match-wins source order (`topicRules`); and for
topics containing the slash-anchored substring `/production` (hence also
`/product`) that reach the product/production rules — i.e. on which none
of the earlier edge/reading/measurement/count/kpi/asset/alert/state rules
fires — the result is `production`; such topics never classify as
`product` regardless of earlier rules. -/
theorem c2_rule_order :
    (∀ t, classifyTopic t = firstMatch topicRules t) ∧
    (∀ (t : String) (p : Payload), containsSub "/production" t = true →
      classify t p ≠ some SchemaName.product) ∧
    (∀ t, containsSub "/production" t = true →
      containsSub "/edge/" t = false → containsSub "/reading/" t = false →
      containsSub "/measurement/" t = false → containsSub "/count/" t = false →
      containsSub "/kpi/" t = false → containsSub "/asset" t = false →
      containsSub "/alert" t = false → containsSub "/state" t = false →
      classifyTopic t = some SchemaName.production) := by
  refine ⟨classifyTopic_eq_firstMatch, ?_, ?_⟩
  · intro t p h
    unfold classify
    cases hc : classifyTopic t with
    | none => exact absurd hc (classifyTopic_production_isSome t h)
    | some n =>
      have h2 : some n ≠ some SchemaName.product := hc ▸ classifyTopic_ne_product t h
      simpa using h2
  · intro t h h1 h2 h3 h4 h5 h6 h7 h8
    unfold classifyTopic
    simp [h, h1, h2, h3, h4, h5, h6, h7, h8]

/-- Witness for C2 (amended): `plant/production/x` contains `/production`
and matches no earlier rule, so it classifies as `production`; and
`plant/b/production` never classifies as `product`. -/
theorem c2_witness :
    classifyTopic "plant/production/x" = some SchemaName.production ∧
    classify "plant/b/production" [] ≠ some SchemaName.product :=
  ⟨c2_rule_order.2.2 "plant/production/x" rfl rfl rfl rfl rfl rfl rfl rfl rfl,
   c2_rule_order.2.1 "plant/b/production" [] rfl⟩

/-- C3 counterexample: the topic `factory/edge` contains the substring
`edge` (even as its final path segment), yet with an empty payload the
classification result is unknown, not `reading`: the code's guard
requires the anchored substring `/edge/`. -/
theorem c3_counterexample :
    containsSub "edge" "factory/edge" = true ∧
    classify "factory/edge" [] = none ∧
    ¬ classify "factory/edge" [] = some SchemaName.reading := by
  decide

/-- C3 (amended): for every topic containing the slash-anchored substring
`/edge/` or `/reading/`, and for every payload whatsoever, classification
resolves `reading`; the payload's shape has no influence on the result. -/
theorem c3_anchored_edge_reading (t : String) (p : Payload)
    (h : containsSub "/edge/" t = true ∨ containsSub "/reading/" t = true) :
    classify t p = some SchemaName.reading := by
  unfold classify classifyTopic
  rcases h with h | h
  · simp [h]
  · cases he : containsSub "/edge/" t <;> simp [he, h]

/-- Witness for C3: the topic `plant/edge/temp` matches the `/edge/` rule
and classifies as `reading` with an empty payload. -/
theorem c3_witness : classify "plant/edge/temp" [] = some SchemaName.reading :=
  c3_anchored_edge_reading "plant/edge/temp" [] (Or.inl rfl)

/-- C4: for every (topic, payload) pair where no topic rule matched,
classification falls back to payload-shape inspection exactly as the spec
words it: the fixed key order assetId, alertId, stateId, measurementId,
countId, kpiId, productId, productionId, valueId, then the simultaneous
presence of type, value and unit yielding `reading`, and otherwise the
unknown result. -/
theorem c4_shape_fallback (t : String) (p : Payload)
    (h : classifyTopic t = none) :
    classify t p = classifyShapeSpec p := by
  unfold classify
  rw [h]
  rfl

/-- Witness for C4: on the keyword-free topic `plant/telemetry`, the
payload with single key `kpiId` is classified by the spec's fallback
chain (both sides evaluate to `kpi`). -/
theorem c4_witness :
    classify "plant/telemetry" [("kpiId", JsonVal.str "k")] =
      classifyShapeSpec [("kpiId", JsonVal.str "k")] :=
  c4_shape_fallback "plant/telemetry" [("kpiId", JsonVal.str "k")] rfl

/-- C5: for every payload whose classification resolved a schema name that
is absent from the loaded registry, `validate_payload` returns accepted
(`True`) with the advisory "no schema found" warning, and
`publish_payload` still hands the payload to the transport, returning the
transport's immediate verdict — schema absence never blocks publication. -/
theorem c5_missing_schema_soft_pass (client : Client) (t : String) (p : Payload)
    (schemas : Schemas) (n : SchemaName)
    (hc : classify t p = some n) (hm : schemas n = none) :
    validate_payload p n schemas = { ok := true, advisory := true } ∧
    (publish_payload client t p schemas).transmitted = true ∧
    (publish_payload client t p schemas).returned =
      (client t (json_dumps (JsonVal.obj p)) == MQTT_ERR_SUCCESS) := by
  have hv : validate_payload p n schemas = { ok := true, advisory := true } := by
    unfold validate_payload
    rw [hm]
  refine ⟨hv, ?_, ?_⟩ <;>
  · unfold publish_payload
    rw [hc]
    simp [hv]

/-- Witness for C5: on topic `a/kpi/x` (classified `kpi`) with an empty
registry, validation soft-passes with the advisory warning and the
payload is transmitted. -/
theorem c5_witness :
    validate_payload [] SchemaName.kpi (fun _ => none) =
      { ok := true, advisory := true } ∧
    (publish_payload (fun _ _ => 0) "a/kpi/x" [] (fun _ => none)).transmitted = true ∧
    (publish_payload (fun _ _ => 0) "a/kpi/x" [] (fun _ => none)).returned =
      ((fun _ _ => 0 : Client) "a/kpi/x" (json_dumps (JsonVal.obj [])) ==
        MQTT_ERR_SUCCESS) :=
  c5_missing_schema_soft_pass (fun _ _ => 0) "a/kpi/x" [] (fun _ => none)
    SchemaName.kpi rfl rfl

/-- C6: a payload rejected by validation against its resolved, loaded
schema makes `publish_payload` return `False` without the transport ever
being invoked for that item, and the enclosing per-item publishing loop
records the failure for that item and still processes every item before
and after it. -/
theorem c6_rejection_blocks_item_only (client : Client) (t : String) (p : Payload)
    (schemas : Schemas) (n : SchemaName) (doc : SchemaDoc)
    (hc : classify t p = some n) (hd : schemas n = some doc) (hr : doc p = false) :
    (publish_payload client t p schemas).transmitted = false ∧
    (publish_payload client t p schemas).returned = false ∧
    ∀ pre post, publishCycle client schemas (pre ++ (t, p) :: post) =
      publishCycle client schemas pre ++ false :: publishCycle client schemas post := by
  have hv : (validate_payload p n schemas).ok = false := by
    unfold validate_payload
    rw [hd]
    exact hr
  have hp : publish_payload client t p schemas =
      { schemaName := some n, transmitted := false,
        warnedUnknown := false, returned := false } := by
    unfold publish_payload
    rw [hc]
    simp [hv]
  refine ⟨by rw [hp], by rw [hp], ?_⟩
  intro pre post
  simp [publishCycle_append, publishCycle, hp]

/-- Witness for C6: with a registry whose `kpi` schema rejects everything,
publishing to `a/kpi/x` is blocked before the transport, and a two-item
cycle containing that item still publishes the other item. -/
theorem c6_witness :
    (publish_payload (fun _ _ => 0) "a/kpi/x" []
      (fun m => if m = SchemaName.kpi then some (fun _ => false) else none)).transmitted
      = false ∧
    publishCycle (fun _ _ => 0)
      (fun m => if m = SchemaName.kpi then some (fun _ => false) else none)
      ([] ++ ("a/kpi/x", ([] : Payload)) :: [("plant/z", [])]) =
    publishCycle (fun _ _ => 0)
      (fun m => if m = SchemaName.kpi then some (fun _ => false) else none) [] ++
      false :: publishCycle (fun _ _ => 0)
        (fun m => if m = SchemaName.kpi then some (fun _ => false) else none)
        [("plant/z", [])] :=
  ⟨(c6_rejection_blocks_item_only (fun _ _ => 0) "a/kpi/x" []
      (fun m => if m = SchemaName.kpi then some (fun _ => false) else none)
      SchemaName.kpi (fun _ => false) rfl rfl rfl).1,
   (c6_rejection_blocks_item_only (fun _ _ => 0) "a/kpi/x" []
      (fun m => if m = SchemaName.kpi then some (fun _ => false) else none)
      SchemaName.kpi (fun _ => false) rfl rfl rfl).2.2 [] [("plant/z", [])]⟩

/-- C7: for every publish attempt that passes (or skips) validation, the
payload is handed to the transport and `publish_payload` returns `True`
exactly when the transport's immediate return code from the send call
equals `MQTT_ERR_SUCCESS`; delivery success is reported from this
immediate acceptance, not from any end-to-end broker acknowledgment. -/
theorem c7_returned_iff_rc (client : Client) (t : String) (p : Payload)
    (schemas : Schemas)
    (h : classify t p = none ∨
      ∃ n, classify t p = some n ∧ (validate_payload p n schemas).ok = true) :
    (publish_payload client t p schemas).transmitted = true ∧
    ((publish_payload client t p schemas).returned = true ↔
      client t (json_dumps (JsonVal.obj p)) = MQTT_ERR_SUCCESS) := by
  rcases h with h | ⟨n, hc, hv⟩
  · unfold publish_payload
    rw [h]
    simp
  · unfold publish_payload
    rw [hc]
    simp [hv]

/-- Witness for C7: on an unclassifiable topic with a transport that
accepts the send (return code 0), the publish is transmitted and reported
successful. -/
theorem c7_witness :
    (publish_payload (fun _ _ => 0) "plant/mystery" [] (fun _ => none)).transmitted
      = true ∧
    ((publish_payload (fun _ _ => 0) "plant/mystery" [] (fun _ => none)).returned
        = true ↔
      (fun _ _ => 0 : Client) "plant/mystery" (json_dumps (JsonVal.obj [])) =
        MQTT_ERR_SUCCESS) :=
  c7_returned_iff_rc (fun _ _ => 0) "plant/mystery" [] (fun _ => none)
    (Or.inl rfl)

lemma firstMatch_some_mem (rs : List ((String → Bool) × SchemaName)) (t : String) :
    ∀ n, firstMatch rs t = some n → ∃ g, ((g, n) ∈ rs ∧ g t = true) := by
  induction rs with
  | nil =>
    intro n h
    simp [firstMatch] at h
  | cons hd tl ih =>
    obtain ⟨g, m⟩ := hd
    intro n h
    simp only [firstMatch] at h
    by_cases hg : g t = true
    · rw [if_pos hg] at h
      injection h with hmn
      subst hmn
      exact ⟨g, List.mem_cons_self _ _, hg⟩
    · rw [if_neg hg] at h
      obtain ⟨g2, hmem, hg2⟩ := ih n h
      exact ⟨g2, List.mem_cons_of_mem _ hmem, hg2⟩

lemma topicNe_reading (t : String) (h : containsSub "/edge/" t = false)
    (h2 : containsSub "/reading/" t = false) :
    classifyTopic t ≠ some SchemaName.reading := by
  intro hc
  rw [classifyTopic_eq_firstMatch] at hc
  obtain ⟨g, hmem, hg⟩ := firstMatch_some_mem topicRules t SchemaName.reading hc
  simp [topicRules] at hmem
  rcases hmem with hmem | hmem <;> subst hmem
  · simp [h] at hg
  · simp [h2] at hg

lemma topicNe_measurement (t : String)
    (h : containsSub "/measurement/" t = false) :
    classifyTopic t ≠ some SchemaName.measurement := by
  intro hc
  rw [classifyTopic_eq_firstMatch] at hc
  obtain ⟨g, hmem, hg⟩ := firstMatch_some_mem topicRules t SchemaName.measurement hc
  simp [topicRules] at hmem
  subst hmem
  simp [h] at hg

lemma topicNe_count (t : String) (h : containsSub "/count/" t = false) :
    classifyTopic t ≠ some SchemaName.count := by
  intro hc
  rw [classifyTopic_eq_firstMatch] at hc
  obtain ⟨g, hmem, hg⟩ := firstMatch_some_mem topicRules t SchemaName.count hc
  simp [topicRules] at hmem
  subst hmem
  simp [h] at hg

lemma topicNe_kpi (t : String) (h : containsSub "/kpi/" t = false) :
    classifyTopic t ≠ some SchemaName.kpi := by
  intro hc
  rw [classifyTopic_eq_firstMatch] at hc
  obtain ⟨g, hmem, hg⟩ := firstMatch_some_mem topicRules t SchemaName.kpi hc
  simp [topicRules] at hmem
  subst hmem
  simp [h] at hg

lemma topicNe_asset (t : String) (h : containsSub "/asset" t = false) :
    classifyTopic t ≠ some SchemaName.asset := by
  intro hc
  rw [classifyTopic_eq_firstMatch] at hc
  obtain ⟨g, hmem, hg⟩ := firstMatch_some_mem topicRules t SchemaName.asset hc
  simp [topicRules] at hmem
  subst hmem
  simp [h] at hg

lemma topicNe_alert (t : String) (h : containsSub "/alert" t = false) :
    classifyTopic t ≠ some SchemaName.alert := by
  intro hc
  rw [classifyTopic_eq_firstMatch] at hc
  obtain ⟨g, hmem, hg⟩ := firstMatch_some_mem topicRules t SchemaName.alert hc
  simp [topicRules] at hmem
  subst hmem
  simp [h] at hg

lemma topicNe_state (t : String) (h : containsSub "/state" t = false) :
    classifyTopic t ≠ some SchemaName.state := by
  intro hc
  rw [classifyTopic_eq_firstMatch] at hc
  obtain ⟨g, hmem, hg⟩ := firstMatch_some_mem topicRules t SchemaName.state hc
  simp [topicRules] at hmem
  subst hmem
  simp [h] at hg

lemma topicNe_product2 (t : String) (h : containsSub "/product" t = false) :
    classifyTopic t ≠ some SchemaName.product := by
  intro hc
  rw [classifyTopic_eq_firstMatch] at hc
  obtain ⟨g, hmem, hg⟩ := firstMatch_some_mem topicRules t SchemaName.product hc
  simp [topicRules] at hmem
  subst hmem
  simp [h] at hg

lemma topicNe_production (t : String) (h : containsSub "/production" t = false) :
    classifyTopic t ≠ some SchemaName.production := by
  intro hc
  rw [classifyTopic_eq_firstMatch] at hc
  obtain ⟨g, hmem, hg⟩ := firstMatch_some_mem topicRules t SchemaName.production hc
  simp [topicRules] at hmem
  subst hmem
  simp [h] at hg

lemma topicNe_value (t : String) (h : containsSub "/value" t = false) :
    classifyTopic t ≠ some SchemaName.value := by
  intro hc
  rw [classifyTopic_eq_firstMatch] at hc
  obtain ⟨g, hmem, hg⟩ := firstMatch_some_mem topicRules t SchemaName.value hc
  simp [topicRules] at hmem
  subst hmem
  simp [h] at hg

lemma topicPos_examples :
    classifyTopic "plant/edge/x" = some SchemaName.reading ∧
    classifyTopic "plant/reading/x" = some SchemaName.reading ∧
    classifyTopic "plant/measurement/x" = some SchemaName.measurement ∧
    classifyTopic "plant/count/x" = some SchemaName.count ∧
    classifyTopic "plant/kpi/x" = some SchemaName.kpi := by
  decide

lemma topicNeg_examples :
    classifyTopic "plant/line/edge" = none ∧
    classifyTopic "edge/plant" = none ∧
    classifyTopic "plant/reading" = none ∧
    classifyTopic "plant/line/measurement" = none ∧
    classifyTopic "count/plant" = none ∧
    classifyTopic "plant/kpi" = none := by
  decide

lemma topicLoose_examples :
    classifyTopic "plant/assets/x" = some SchemaName.asset ∧
    classifyTopic "plant/alerts" = some SchemaName.alert ∧
    classifyTopic "plant/state-machine/x" = some SchemaName.state ∧
    classifyTopic "plant/products" = some SchemaName.product ∧
    classifyTopic "plant/productions" = some SchemaName.production ∧
    classifyTopic "plant/values" = some SchemaName.value := by
  decide

lemma topicIff_reading (t : String) :
    classifyTopic t = some SchemaName.reading ↔
      (containsSub "/edge/" t = true ∨ containsSub "/reading/" t = true) := by
  constructor
  · intro hc
    cases he : containsSub "/edge/" t
    · cases hr : containsSub "/reading/" t
      · exact absurd hc (topicNe_reading t he hr)
      · exact Or.inr rfl
    · exact Or.inl rfl
  · intro h
    rcases h with h | h
    · unfold classifyTopic
      simp [h]
    · unfold classifyTopic
      cases he : containsSub "/edge/" t <;> simp [he, h]

lemma topicIff_measurement (t : String)
    (h1 : containsSub "/edge/" t = false)
    (h2 : containsSub "/reading/" t = false) :
    classifyTopic t = some SchemaName.measurement ↔
      containsSub "/measurement/" t = true := by
  constructor
  · intro hc
    cases hm : containsSub "/measurement/" t
    · exact absurd hc (topicNe_measurement t hm)
    · rfl
  · intro hm
    unfold classifyTopic
    simp [h1, h2, hm]

lemma topicIff_count (t : String)
    (h1 : containsSub "/edge/" t = false)
    (h2 : containsSub "/reading/" t = false)
    (h3 : containsSub "/measurement/" t = false) :
    classifyTopic t = some SchemaName.count ↔
      containsSub "/count/" t = true := by
  constructor
  · intro hc
    cases hm : containsSub "/count/" t
    · exact absurd hc (topicNe_count t hm)
    · rfl
  · intro hm
    unfold classifyTopic
    simp [h1, h2, h3, hm]

lemma topicIff_kpi (t : String)
    (h1 : containsSub "/edge/" t = false)
    (h2 : containsSub "/reading/" t = false)
    (h3 : containsSub "/measurement/" t = false)
    (h4 : containsSub "/count/" t = false) :
    classifyTopic t = some SchemaName.kpi ↔
      containsSub "/kpi/" t = true := by
  constructor
  · intro hc
    cases hm : containsSub "/kpi/" t
    · exact absurd hc (topicNe_kpi t hm)
    · rfl
  · intro hm
    unfold classifyTopic
    simp [h1, h2, h3, h4, hm]

lemma topicIff_asset (t : String)
    (h1 : containsSub "/edge/" t = false)
    (h2 : containsSub "/reading/" t = false)
    (h3 : containsSub "/measurement/" t = false)
    (h4 : containsSub "/count/" t = false)
    (h5 : containsSub "/kpi/" t = false) :
    classifyTopic t = some SchemaName.asset ↔
      containsSub "/asset" t = true := by
  constructor
  · intro hc
    cases hm : containsSub "/asset" t
    · exact absurd hc (topicNe_asset t hm)
    · rfl
  · intro hm
    unfold classifyTopic
    simp [h1, h2, h3, h4, h5, hm]

lemma topicIff_alert (t : String)
    (h1 : containsSub "/edge/" t = false)
    (h2 : containsSub "/reading/" t = false)
    (h3 : containsSub "/measurement/" t = false)
    (h4 : containsSub "/count/" t = false)
    (h5 : containsSub "/kpi/" t = false)
    (h6 : containsSub "/asset" t = false) :
    classifyTopic t = some SchemaName.alert ↔
      containsSub "/alert" t = true := by
  constructor
  · intro hc
    cases hm : containsSub "/alert" t
    · exact absurd hc (topicNe_alert t hm)
    · rfl
  · intro hm
    unfold classifyTopic
    simp [h1, h2, h3, h4, h5, h6, hm]

lemma topicIff_state (t : String)
    (h1 : containsSub "/edge/" t = false)
    (h2 : containsSub "/reading/" t = false)
    (h3 : containsSub "/measurement/" t = false)
    (h4 : containsSub "/count/" t = false)
    (h5 : containsSub "/kpi/" t = false)
    (h6 : containsSub "/asset" t = false)
    (h7 : containsSub "/alert" t = false) :
    classifyTopic t = some SchemaName.state ↔
      containsSub "/state" t = true := by
  constructor
  · intro hc
    cases hm : containsSub "/state" t
    · exact absurd hc (topicNe_state t hm)
    · rfl
  · intro hm
    unfold classifyTopic
    simp [h1, h2, h3, h4, h5, h6, h7, hm]

lemma topicIff_product (t : String)
    (h1 : containsSub "/edge/" t = false)
    (h2 : containsSub "/reading/" t = false)
    (h3 : containsSub "/measurement/" t = false)
    (h4 : containsSub "/count/" t = false)
    (h5 : containsSub "/kpi/" t = false)
    (h6 : containsSub "/asset" t = false)
    (h7 : containsSub "/alert" t = false)
    (h8 : containsSub "/state" t = false) :
    classifyTopic t = some SchemaName.product ↔
      (containsSub "/product" t = true ∧ containsSub "/production" t = false) := by
  constructor
  · intro hc
    cases hp : containsSub "/product" t
    · exact absurd hc (topicNe_product2 t hp)
    · cases hq : containsSub "/production" t
      · exact ⟨rfl, rfl⟩
      · exact absurd hc (classifyTopic_ne_product t hq)
  · rintro ⟨hp, hq⟩
    unfold classifyTopic
    simp [h1, h2, h3, h4, h5, h6, h7, h8, hp, hq]

lemma topicIff_production (t : String)
    (h1 : containsSub "/edge/" t = false)
    (h2 : containsSub "/reading/" t = false)
    (h3 : containsSub "/measurement/" t = false)
    (h4 : containsSub "/count/" t = false)
    (h5 : containsSub "/kpi/" t = false)
    (h6 : containsSub "/asset" t = false)
    (h7 : containsSub "/alert" t = false)
    (h8 : containsSub "/state" t = false) :
    classifyTopic t = some SchemaName.production ↔
      containsSub "/production" t = true := by
  constructor
  · intro hc
    cases hq : containsSub "/production" t
    · exact absurd hc (topicNe_production t hq)
    · rfl
  · intro hq
    unfold classifyTopic
    simp [h1, h2, h3, h4, h5, h6, h7, h8, hq]

lemma topicIff_value (t : String)
    (h1 : containsSub "/edge/" t = false)
    (h2 : containsSub "/reading/" t = false)
    (h3 : containsSub "/measurement/" t = false)
    (h4 : containsSub "/count/" t = false)
    (h5 : containsSub "/kpi/" t = false)
    (h6 : containsSub "/asset" t = false)
    (h7 : containsSub "/alert" t = false)
    (h8 : containsSub "/state" t = false)
    (h9 : containsSub "/product" t = false)
    (h10 : containsSub "/production" t = false) :
    classifyTopic t = some SchemaName.value ↔
      containsSub "/value" t = true := by
  constructor
  · intro hc
    cases hv : containsSub "/value" t
    · exact absurd hc (topicNe_value t hv)
    · rfl
  · intro hv
    unfold classifyTopic
    simp [h1, h2, h3, h4, h5, h6, h7, h8, h9, h10, hv]

/-- C8 counterexample: the topic `a/production` contains the substring
`/product` and reaches the product rule (no earlier rule matches), yet the
product rule does not fire — classification yields `production` — because
the code's product guard additionally requires that `/production` be
absent, an exclusion the claim's biconditional for `product` omits. -/
theorem c8_counterexample :
    containsSub "/product" "a/production" = true ∧
    classifyTopic "a/production" = some SchemaName.production ∧
    ¬ classifyTopic "a/production" = some SchemaName.product := by
  decide

/-- C8 (amended): the topic rules match slash-anchored substrings, not
whole path segments.  Classification yields `reading` exactly when the
topic contains `/edge/` or `/reading/`; and for every later rule, on the
topics that reach it (no earlier rule's guard holds), the rule fires if
and only if the topic contains its anchored pattern: the two-sided
`/measurement/`, `/count/`, `/kpi/` for the first group, and the
one-sided `/asset`, `/alert`, `/state`, `/production`, `/value` for the
second — except `product`, whose rule fires if and only if the topic
contains `/product` AND does not contain `/production`.  Consequently a
topic whose final segment is a first-group keyword, or whose first
segment is one with no preceding slash, does not trigger that rule,
while a segment merely beginning with a second-group keyword
(e.g. `assets` or `state-machine`) does. -/
theorem c8_anchored_guard_iff :
    (∀ t, classifyTopic t = some SchemaName.reading ↔
      (containsSub "/edge/" t = true ∨ containsSub "/reading/" t = true)) ∧
    (∀ t, containsSub "/edge/" t = false → containsSub "/reading/" t = false →
      (classifyTopic t = some SchemaName.measurement ↔
        containsSub "/measurement/" t = true)) ∧
    (∀ t, containsSub "/edge/" t = false → containsSub "/reading/" t = false →
      containsSub "/measurement/" t = false →
      (classifyTopic t = some SchemaName.count ↔
        containsSub "/count/" t = true)) ∧
    (∀ t, containsSub "/edge/" t = false → containsSub "/reading/" t = false →
      containsSub "/measurement/" t = false → containsSub "/count/" t = false →
      (classifyTopic t = some SchemaName.kpi ↔
        containsSub "/kpi/" t = true)) ∧
    (∀ t, containsSub "/edge/" t = false → containsSub "/reading/" t = false →
      containsSub "/measurement/" t = false → containsSub "/count/" t = false →
      containsSub "/kpi/" t = false →
      (classifyTopic t = some SchemaName.asset ↔
        containsSub "/asset" t = true)) ∧
    (∀ t, containsSub "/edge/" t = false → containsSub "/reading/" t = false →
      containsSub "/measurement/" t = false → containsSub "/count/" t = false →
      containsSub "/kpi/" t = false → containsSub "/asset" t = false →
      (classifyTopic t = some SchemaName.alert ↔
        containsSub "/alert" t = true)) ∧
    (∀ t, containsSub "/edge/" t = false → containsSub "/reading/" t = false →
      containsSub "/measurement/" t = false → containsSub "/count/" t = false →
      containsSub "/kpi/" t = false → containsSub "/asset" t = false →
      containsSub "/alert" t = false →
      (classifyTopic t = some SchemaName.state ↔
        containsSub "/state" t = true)) ∧
    (∀ t, containsSub "/edge/" t = false → containsSub "/reading/" t = false →
      containsSub "/measurement/" t = false → containsSub "/count/" t = false →
      containsSub "/kpi/" t = false → containsSub "/asset" t = false →
      containsSub "/alert" t = false → containsSub "/state" t = false →
      (classifyTopic t = some SchemaName.product ↔
        (containsSub "/product" t = true ∧
          containsSub "/production" t = false))) ∧
    (∀ t, containsSub "/edge/" t = false → containsSub "/reading/" t = false →
      containsSub "/measurement/" t = false → containsSub "/count/" t = false →
      containsSub "/kpi/" t = false → containsSub "/asset" t = false →
      containsSub "/alert" t = false → containsSub "/state" t = false →
      (classifyTopic t = some SchemaName.production ↔
        containsSub "/production" t = true)) ∧
    (∀ t, containsSub "/edge/" t = false → containsSub "/reading/" t = false →
      containsSub "/measurement/" t = false → containsSub "/count/" t = false →
      containsSub "/kpi/" t = false → containsSub "/asset" t = false →
      containsSub "/alert" t = false → containsSub "/state" t = false →
      containsSub "/product" t = false → containsSub "/production" t = false →
      (classifyTopic t = some SchemaName.value ↔
        containsSub "/value" t = true)) ∧
    (classifyTopic "plant/edge/x" = some SchemaName.reading ∧
     classifyTopic "plant/reading/x" = some SchemaName.reading ∧
     classifyTopic "plant/measurement/x" = some SchemaName.measurement ∧
     classifyTopic "plant/count/x" = some SchemaName.count ∧
     classifyTopic "plant/kpi/x" = some SchemaName.kpi) ∧
    (classifyTopic "plant/line/edge" = none ∧
     classifyTopic "edge/plant" = none ∧
     classifyTopic "plant/reading" = none ∧
     classifyTopic "plant/line/measurement" = none ∧
     classifyTopic "count/plant" = none ∧
     classifyTopic "plant/kpi" = none) ∧
    (classifyTopic "plant/assets/x" = some SchemaName.asset ∧
     classifyTopic "plant/alerts" = some SchemaName.alert ∧
     classifyTopic "plant/state-machine/x" = some SchemaName.state ∧
     classifyTopic "plant/products" = some SchemaName.product ∧
     classifyTopic "plant/productions" = some SchemaName.production ∧
     classifyTopic "plant/values" = some SchemaName.value) := by
  exact ⟨topicIff_reading, topicIff_measurement, topicIff_count, topicIff_kpi,
    topicIff_asset, topicIff_alert, topicIff_state, topicIff_product,
    topicIff_production, topicIff_value, topicPos_examples, topicNeg_examples,
    topicLoose_examples⟩

/-- Witness for C8 (amended): the measurement biconditional instantiated
on `plant/measurement/x`, and the product biconditional instantiated on
`a/production`, where both sides are false because `/production` is
present. -/
theorem c8_guard_iff_witness :
    (classifyTopic "plant/measurement/x" = some SchemaName.measurement ↔
      containsSub "/measurement/" "plant/measurement/x" = true) ∧
    (classifyTopic "a/production" = some SchemaName.product ↔
      (containsSub "/product" "a/production" = true ∧
        containsSub "/production" "a/production" = false)) :=
  ⟨c8_anchored_guard_iff.2.1 "plant/measurement/x" rfl rfl,
   c8_anchored_guard_iff.2.2.2.2.2.2.2.1 "a/production"
     rfl rfl rfl rfl rfl rfl rfl rfl⟩

/-- C9: classification is independent of the schema registry: for any
fixed transport, topic and payload, the `schema_name` resolved inside
`publish_payload` is the same under any two registry contents, and it
always equals the pure `classify` of the inputs — the registry is
consulted only afterwards, by validation. -/
theorem c9_registry_independent (client : Client) (t : String) (p : Payload)
    (s1 s2 : Schemas) :
    (publish_payload client t p s1).schemaName =
      (publish_payload client t p s2).schemaName ∧
    (publish_payload client t p s1).schemaName = classify t p := by
  refine ⟨?_, ?_⟩
  · unfold publish_payload
    cases classify t p with
    | none => rfl
    | some n =>
      by_cases h1 : (validate_payload p n s1).ok = false <;>
        by_cases h2 : (validate_payload p n s2).ok = false <;>
        simp [h1, h2]
  · unfold publish_payload
    cases hc : classify t p with
    | none => rfl
    | some n =>
      by_cases h1 : (validate_payload p n s1).ok = false <;> simp [h1]

/-- C10: the payload-shape fallback inspects only the top-level keys of
the payload mapping: the fallback result is a function of the top-level
key list alone (nested sub-mappings never affect it), and when no
top-level key matches a trigger — no `*Id` key and not all three of
`type`, `value`, `unit` — classification on an unmatched topic yields the
unknown result. -/
theorem c10_top_level_keys_only :
    (∀ p1 p2 : Payload, p1.map Prod.fst = p2.map Prod.fst →
      classifyShape p1 = classifyShape p2) ∧
    (∀ (t : String) (p : Payload), classifyTopic t = none →
      hasKey p "assetId" = false → hasKey p "alertId" = false →
      hasKey p "stateId" = false → hasKey p "measurementId" = false →
      hasKey p "countId" = false → hasKey p "kpiId" = false →
      hasKey p "productId" = false → hasKey p "productionId" = false →
      hasKey p "valueId" = false →
      (hasKey p "type" = false ∨ hasKey p "value" = false ∨
        hasKey p "unit" = false) →
      classify t p = none) := by
  constructor
  · intro p1 p2 h
    unfold classifyShape hasKey
    rw [h]
  · intro t p ht h1 h2 h3 h4 h5 h6 h7 h8 h9 h10
    unfold classify
    rw [ht]
    unfold classifyShape
    rcases h10 with h10 | h10 | h10 <;>
      simp [h1, h2, h3, h4, h5, h6, h7, h8, h9, h10]

/-- Witness for C10: a payload whose `assetId`, `type`, `value` and
`unit` keys occur only inside the nested `metadata` sub-mapping
classifies as unknown on a keyword-free topic. -/
theorem c10_witness :
    classify "plant/telemetry"
      [("metadata", JsonVal.obj [("assetId", JsonVal.str "a"),
        ("type", JsonVal.null), ("value", JsonVal.null),
        ("unit", JsonVal.null)])] = none :=
  c10_top_level_keys_only.2 "plant/telemetry"
    [("metadata", JsonVal.obj [("assetId", JsonVal.str "a"),
      ("type", JsonVal.null), ("value", JsonVal.null),
      ("unit", JsonVal.null)])]
    rfl rfl rfl rfl rfl rfl rfl rfl rfl rfl (Or.inl rfl)

end UNSPayload

